import Mathlib

/-!
Shallow embedding of `src/scripts/wrapper_lilypond.py` (the lilypond wrapper
of the openbook repository) and proofs about it.

The wrapper runs a fixed linear pipeline:
  1. remove the managed artifacts (the `ps` and `pdf` paths) if present;
  2. invoke `lilypond` through the gated runner `system_check_output`,
     then chmod the produced artifacts (inside a `try/except OSError`);
  3. optionally reduce the pdf size (pdf2ps / ps2pdf round trip through a
     self-deleting temporary file);
  4. optionally linearize the pdf (qpdf into a `delete=False` temporary
     file which is then moved over the pdf);
  5. finalize: unlink or chmod the ps file, chmod the pdf file.

The embedding models the filesystem as an association list from paths to
files, the diagnostic stream as a list of structured messages (one message
per `print` call in the source), and the behavior of each external command
as an oracle mapping the command line either to `none` (the launch itself
raises `OSError`) or to a result carrying exit status, captured stdout and
stderr text, and the command's effect on the filesystem.  Control effects
(`sys.exit`, uncaught `OSError`) are modelled with `Except`.
-/

namespace OpenBook

/-- A file on disk: its textual content and its permission bits. -/
structure File where
  content : String
  mode : Nat
deriving DecidableEq, Repr

/-- The filesystem: an association list from paths to files. -/
abbrev FS := List (String × File)

/-- `os.path.isfile`: does a file exist at path `p`? -/
def isfile : FS → String → Bool
  | [], _ => false
  | e :: fs, p => e.1 == p || isfile fs p

/-- Look up the file stored at path `p`. -/
def fsGet : FS → String → Option File
  | [], _ => none
  | e :: fs, p => if e.1 == p then some e.2 else fsGet fs p

/-- Remove every entry at path `p` (the effect of a successful `os.unlink`). -/
def unlinkF : FS → String → FS
  | [], _ => []
  | e :: fs, p => if e.1 == p then unlinkF fs p else e :: unlinkF fs p

/-- Create or overwrite the file at path `p`. -/
def writeF (fs : FS) (p : String) (f : File) : FS :=
  (p, f) :: unlinkF fs p

/-- Change the permission bits of the file at path `p`, if present. -/
def chmodF : FS → String → Nat → FS
  | [], _, _ => []
  | e :: fs, p, m =>
    (if e.1 == p then (e.1, File.mk e.2.content m) else e) :: chmodF fs p m

/-- The log levels of lilypond (`LilypondLogLevels` in the source). -/
inductive LilypondLogLevels where
  | NONE
  | ERROR
  | WARNING
  | BASIC
  | PROGRESS
  | INFO
  | DEBUG
deriving DecidableEq, Repr

/-- The `.name` of a log level, as interpolated into `--loglevel=`. -/
def LilypondLogLevels.name : LilypondLogLevels → String
  | .NONE => "NONE"
  | .ERROR => "ERROR"
  | .WARNING => "WARNING"
  | .BASIC => "BASIC"
  | .PROGRESS => "PROGRESS"
  | .INFO => "INFO"
  | .DEBUG => "DEBUG"

/-- The configuration of a run (`ConfigAll` in the source): the boolean
policy flags, the log level, and the four path/string parameters. -/
structure ConfigAll where
  do_ps : Bool
  do_pdf : Bool
  do_debug : Bool
  unlink_ps : Bool
  do_qpdf : Bool
  loglevel : LilypondLogLevels
  do_pdfred : Bool
  stop_on_output : Bool
  ps : String
  pdf : String
  ly : String
  output : String
deriving DecidableEq, Repr

/-- The default values of the flags declared by `ConfigAll`
(`do_ps=True, do_pdf=True, do_debug=False, unlink_ps=False, do_qpdf=True,
loglevel=ERROR, do_pdfred=False, stop_on_output=True`). -/
def ConfigAll.defaults (ps pdf ly output : String) : ConfigAll where
  do_ps := true
  do_pdf := true
  do_debug := false
  unlink_ps := false
  do_qpdf := true
  loglevel := .ERROR
  do_pdfred := false
  stop_on_output := true
  ps := ps
  pdf := pdf
  ly := ly
  output := output

/-- One diagnostic message, a structured rendering of one `print(...,
file=sys.stderr)` call in the source. -/
inductive Msg where
  | argumentsAre (argv0 : String) (argv : List String)
  | running (argv0 : String) (args : List String)
  | stdoutLabel (argv0 : String)
  | stdoutText (s : String)
  | stderrLabel (argv0 : String)
  | stderrText (s : String)
  | returnCode (argv0 : String) (status : Int)
  | errorExecuting (argv0 : String) (args : List String)
  | exitingBecauseOfErrors (argv0 : String)
deriving DecidableEq, Repr

/-- The observable result of one successfully launched external command:
captured stdout and stderr text, numeric exit status, and the command's
effect on the filesystem while it ran. -/
structure ExecResult where
  output : String
  errout : String
  returncode : Int
  effect : FS → FS

/-- The environment: what each external command line does.  `none` means
`subprocess.Popen` itself raises `OSError` (e.g. executable missing). -/
abbrev Oracle := List String → Option ExecResult

/-- The world state threaded through the run: the filesystem, the
diagnostic stream (in print order), and the trace of attempted command
launches, each with a snapshot of the filesystem at launch time. -/
structure World where
  fs : FS
  log : List Msg
  trace : List (List String × FS)
deriving DecidableEq, Repr

/-- Control-flow exceptions: `sys.exit(code)` raises `SystemExit`, and
filesystem/launch errors raise `OSError`. -/
inductive PyErr where
  | osError
  | systemExit (code : Int)
deriving DecidableEq, Repr

/-- A pipeline step either returns a new world or escapes with an
exception carrying the world at the point of escape. -/
abbrev Step := Except (PyErr × World) World

/-- The world carried by a step result, whether it returned or escaped. -/
def resWorld : Step → World
  | .ok w => w
  | .error (_, w) => w

/-- `os.unlink`: raises `OSError` when no file exists at `p`. -/
def pyUnlink (w : World) (p : String) : Step :=
  if isfile w.fs p then .ok { w with fs := unlinkF w.fs p }
  else .error (.osError, w)

/-- `os.chmod`: raises `OSError` when no file exists at `p`. -/
def pyChmod (w : World) (p : String) (m : Nat) : Step :=
  if isfile w.fs p then .ok { w with fs := chmodF w.fs p m }
  else .error (.osError, w)

/-- `shutil.move src dst`: the file at `src` replaces whatever is at
`dst`; raises `OSError` when `src` does not exist. -/
def pyMove (w : World) (src dst : String) : Step :=
  match fsGet w.fs src with
  | some f => .ok { w with fs := writeF (unlinkF w.fs src) dst f }
  | none => .error (.osError, w)

/-- `os.unlink` as a bare filesystem operation: raises `OSError` (modelled
as `Except.error`) when no file exists at `p`. -/
def osUnlink (fs : FS) (p : String) : Except Unit FS :=
  if isfile fs p then .ok (unlinkF fs p) else .error ()

/-- `remove_outputs_if_exist`: unlink the ps path and then the pdf path,
each guarded by `os.path.isfile`.  Modelled with the fallible `os.unlink`
to show the guards make the operation total. -/
def remove_outputs_if_exist (cfg : ConfigAll) (fs : FS) : Except Unit FS := do
  let fs1 ← if isfile fs cfg.ps then osUnlink fs cfg.ps else Except.ok fs
  if isfile fs1 cfg.pdf then osUnlink fs1 cfg.pdf else Except.ok fs1

/-- One guarded unlink: `if os.path.isfile(p): os.unlink(p)`. -/
def removeIfExists (fs : FS) (p : String) : FS :=
  if isfile fs p then unlinkF fs p else fs

/-- The total function computed by `remove_outputs_if_exist`: guarded
unlink of the ps path, then of the pdf path. -/
def removeOutputs (cfg : ConfigAll) (fs : FS) : FS :=
  removeIfExists (removeIfExists fs cfg.ps) cfg.pdf

/-- `print_outputs`: the diagnostic messages printed in case of error, in
print order: stdout (when non-empty), stderr (when non-empty), the return
code, the offending command line. -/
def print_outputs (argv0 : String) (output errout : String) (status : Int)
    (args : List String) : List Msg :=
  (if output != "" then [Msg.stdoutLabel argv0, Msg.stdoutText output] else [])
  ++ (if errout != "" then [Msg.stderrLabel argv0, Msg.stderrText errout] else [])
  ++ [Msg.returnCode argv0 status, Msg.errorExecuting argv0 args]

/-- The failure predicate of the gated runner, exactly the condition of
`if ConfigAll.do_debug or process.returncode or (ConfigAll.stop_on_output
and (output != "" or errout != ""))`. -/
def gateFails (cfg : ConfigAll) (r : ExecResult) : Bool :=
  cfg.do_debug || r.returncode != 0
    || (cfg.stop_on_output && (r.output != "" || r.errout != ""))

/-- `system_check_output`: launch the command with stdout/stderr piped,
wait for it, and either return normally or print the captured output,
remove the managed artifacts, and `sys.exit(1)`. -/
def system_check_output (cfg : ConfigAll) (oracle : Oracle) (argv0 : String)
    (args : List String) (w : World) : Step :=
  let w0 := if cfg.do_debug then { w with log := w.log ++ [Msg.running argv0 args] } else w
  let w1 := { w0 with trace := w0.trace ++ [(args, w0.fs)] }
  match oracle args with
  | none => .error (.osError, w1)
  | some r =>
    let w2 := { w1 with fs := r.effect w1.fs }
    if gateFails cfg r then
      let w3 := { w2 with log := w2.log ++ print_outputs argv0 r.output r.errout r.returncode args }
      let w4 := { w3 with fs := removeOutputs cfg w3.fs }
      .error (.systemExit 1, w4)
    else
      .ok w2

/-- The lilypond command line built by `run`. -/
def engineArgs (cfg : ConfigAll) : List String :=
  ["lilypond", "--loglevel=" ++ cfg.loglevel.name]
  ++ (if cfg.do_ps then ["--ps"] else [])
  ++ (if cfg.do_pdf then ["--pdf"] else [])
  ++ ["--output=" ++ cfg.output, cfg.ly]

/-- The pdf2ps command line of the size-reduction stage. -/
def pdf2psArgs (cfg : ConfigAll) (tmp : String) : List String :=
  ["pdf2ps", "-dLanguageLevel=3", cfg.pdf, tmp]

/-- The ps2pdf command line of the size-reduction stage. -/
def ps2pdfArgs (cfg : ConfigAll) (tmp : String) : List String :=
  ["ps2pdf", tmp, cfg.pdf]

/-- The qpdf command line of the linearization stage. -/
def qpdfArgs (cfg : ConfigAll) (tmp : String) : List String :=
  ["qpdf", "--linearize", cfg.pdf, tmp]

/-- The file created on disk by `tempfile.NamedTemporaryFile`: empty,
mode 0o600. -/
def tempFile : File := File.mk "" 0o600

/-- The body of the `try` block of `run`: invoke lilypond through the
gated runner, then chmod the requested artifacts to 0o444. -/
def engineTry (cfg : ConfigAll) (oracle : Oracle) (argv0 : String) (w : World) : Step := do
  let w1 ← system_check_output cfg oracle argv0 (engineArgs cfg) w
  let w2 ← if cfg.do_ps then pyChmod w1 cfg.ps 0o444 else pure w1
  if cfg.do_pdf then pyChmod w2 cfg.pdf 0o444 else pure w2

/-- The engine stage of `run`, including the `except OSError` handler:
on `OSError`, remove the managed artifacts, report, and `sys.exit(1)`.
`SystemExit` raised inside the `try` is not an `OSError` and passes
through the handler. -/
def engineStage (cfg : ConfigAll) (oracle : Oracle) (argv0 : String) (w : World) : Step :=
  match engineTry cfg oracle argv0 w with
  | .ok w1 => .ok w1
  | .error (.osError, w1) =>
    let w2 := { w1 with fs := removeOutputs cfg w1.fs }
    let w3 := { w2 with log := w2.log ++ [Msg.exitingBecauseOfErrors argv0] }
    .error (.systemExit 1, w3)
  | .error (.systemExit n, w1) => .error (.systemExit n, w1)

/-- The body of the size-reduction `with` block: pdf2ps into the
temporary file, unlink the pdf, ps2pdf back from the temporary file. -/
def pdfredBody (cfg : ConfigAll) (oracle : Oracle) (argv0 tmp : String) (w : World) : Step := do
  let w1 ← system_check_output cfg oracle argv0 (pdf2psArgs cfg tmp) w
  let w2 ← pyUnlink w1 cfg.pdf
  system_check_output cfg oracle argv0 (ps2pdfArgs cfg tmp) w2

/-- The optional size-reduction stage.  `tempfile.NamedTemporaryFile()`
creates the temporary file and, because `delete` defaults to `True`,
deletes it when the `with` block is left — also when it is left by an
exception unwinding through the context manager. -/
def pdfredStage (cfg : ConfigAll) (oracle : Oracle) (argv0 tmp : String) (w : World) : Step :=
  if cfg.do_pdfred then
    let w0 := { w with fs := writeF w.fs tmp tempFile }
    match pdfredBody cfg oracle argv0 tmp w0 with
    | .ok w1 => .ok { w1 with fs := unlinkF w1.fs tmp }
    | .error (e, w1) => .error (e, { w1 with fs := unlinkF w1.fs tmp })
  else .ok w

/-- The optional linearization stage.  The temporary file is created with
`delete=False`, so leaving the `with` block only closes the handle and
never deletes the file; the file disappears only through the explicit
`shutil.move` at the end of the block. -/
def qpdfStage (cfg : ConfigAll) (oracle : Oracle) (argv0 tmp : String) (w : World) : Step :=
  if cfg.do_qpdf then
    let w0 := { w with fs := writeF w.fs tmp tempFile }
    (do
      let w1 ← system_check_output cfg oracle argv0 (qpdfArgs cfg tmp) w0
      let w2 ← pyUnlink w1 cfg.pdf
      pyMove w2 tmp cfg.pdf)
  else .ok w

/-- The finalization of `run`: unlink or chmod the ps file, then chmod
the pdf file, each guarded by `os.path.isfile`. -/
def finalStage (cfg : ConfigAll) (w : World) : Step :=
  let w1 :=
    if isfile w.fs cfg.ps then
      (if cfg.unlink_ps then { w with fs := unlinkF w.fs cfg.ps }
       else { w with fs := chmodF w.fs cfg.ps 0o444 })
    else w
  .ok (if isfile w1.fs cfg.pdf then { w1 with fs := chmodF w1.fs cfg.pdf 0o444 } else w1)

/-- The `run` endpoint: debug banner, pre-clean, engine stage with its
`OSError` handler, optional size reduction, optional linearization,
finalization.  `tmpRed` and `tmpLin` are the fresh names handed out by
`tempfile.NamedTemporaryFile` for the two stages. -/
def run (cfg : ConfigAll) (oracle : Oracle) (argv0 : String) (argv : List String)
    (tmpRed tmpLin : String) (w : World) : Step := do
  let w0 := if cfg.do_debug then { w with log := w.log ++ [Msg.argumentsAre argv0 argv] } else w
  let w1 := { w0 with fs := removeOutputs cfg w0.fs }
  let w2 ← engineStage cfg oracle argv0 w1
  let w3 ← pdfredStage cfg oracle argv0 tmpRed w2
  let w4 ← qpdfStage cfg oracle argv0 tmpLin w3
  finalStage cfg w4

/-- How the process as a whole ends: `run` returns (exit status 0),
`sys.exit(code)` is raised, or an `OSError` escapes uncaught (the
interpreter prints a traceback and exits with a non-zero status). -/
inductive Outcome where
  | completed
  | exited (code : Int)
  | uncaughtOSError
deriving DecidableEq, Repr

/-- The observable end state of a whole process run: outcome plus final
world. -/
def processRun (cfg : ConfigAll) (oracle : Oracle) (argv0 : String) (argv : List String)
    (tmpRed tmpLin : String) (w : World) : Outcome × World :=
  match run cfg oracle argv0 argv tmpRed tmpLin w with
  | .ok w1 => (.completed, w1)
  | .error (.systemExit n, w1) => (.exited n, w1)
  | .error (.osError, w1) => (.uncaughtOSError, w1)

/-! ## Concrete instances (used to exhibit witnesses and counterexamples) -/

/-- A concrete postscript file. -/
def psFile : File := File.mk "%!PS-Adobe-2.0" 0o644

/-- A concrete pdf file as produced by the engine. -/
def pdfFile : File := File.mk "%PDF-1.5 original" 0o644

/-- A concrete pdf file as produced by the linearization command. -/
def linFile : File := File.mk "%PDF-1.5 linearized" 0o644

/-- A filesystem effect that creates the two artifacts, as a clean
lilypond run does. -/
def engineEffect (ps pdf : String) : FS → FS :=
  fun fs => writeF (writeF fs ps psFile) pdf pdfFile

/-- A clean command result: exit status 0, no output, given effect. -/
def cleanRes (eff : FS → FS) : ExecResult :=
  { output := "", errout := "", returncode := 0, effect := eff }

/-- The default configuration over concrete paths. -/
def cfgDef : ConfigAll := ConfigAll.defaults "book.ps" "book.pdf" "book.ly" "out"

/-- An environment for a fully clean default run: lilypond produces both
artifacts, qpdf writes the linearized pdf into the temporary file. -/
def oracleClean : Oracle := fun args =>
  if args = engineArgs cfgDef then
    some (cleanRes (engineEffect "book.ps" "book.pdf"))
  else if args = qpdfArgs cfgDef "tmp1" then
    some (cleanRes (fun fs => writeF fs "tmp1" linFile))
  else none

/-- The default configuration with debug mode switched on. -/
def cfgDebug : ConfigAll := { cfgDef with do_debug := true }

/-- The default configuration with the size-reduction stage switched on. -/
def cfgPdfred : ConfigAll := { cfgDef with do_pdfred := true }

/-- An environment where lilypond runs cleanly but the `pdf2ps`
executable is missing, so its launch raises `OSError`. -/
def oraclePdf2psMissing : Oracle := fun args =>
  if args = engineArgs cfgPdfred then
    some (cleanRes (engineEffect "book.ps" "book.pdf"))
  else none

/-- An environment where lilypond runs cleanly but the qpdf command
exits with status 2. -/
def oracleQpdfFails : Oracle := fun args =>
  if args = engineArgs cfgDef then
    some (cleanRes (engineEffect "book.ps" "book.pdf"))
  else if args = qpdfArgs cfgDef "tmp1" then
    some { output := "", errout := "qpdf: bad input", returncode := 2, effect := fun fs => fs }
  else none

/-- The default configuration with pdf production disabled (and ps
production disabled as well, to keep the engine stage clean). -/
def cfgNoPdf : ConfigAll := { cfgDef with do_pdf := false, do_ps := false }

/-- An environment where lilypond runs cleanly and writes nothing. -/
def oracleEngineOnly : Oracle := fun args =>
  if args = engineArgs cfgNoPdf then some (cleanRes (fun fs => fs)) else none

/-- The empty initial world. -/
def initWorld : World := { fs := [], log := [], trace := [] }

/-! ## Basic lemmas about the filesystem model -/

theorem isfile_unlinkF (fs : FS) (p q : String) :
    isfile (unlinkF fs p) q = (!(p == q) && isfile fs q) := by
  induction fs with
  | nil => simp [isfile, unlinkF]
  | cons e fs ih =>
    by_cases h1 : e.1 = p <;> by_cases h2 : p = q <;>
      by_cases h3 : e.1 = q <;>
      simp_all [isfile, unlinkF, beq_eq_decide]

theorem isfile_writeF (fs : FS) (p q : String) (f : File) :
    isfile (writeF fs p f) q = ((p == q) || isfile fs q) := by
  by_cases h : p = q <;>
    simp_all [writeF, isfile, isfile_unlinkF, beq_eq_decide]

theorem isfile_chmodF (fs : FS) (p q : String) (m : Nat) :
    isfile (chmodF fs p m) q = isfile fs q := by
  induction fs with
  | nil => rfl
  | cons e fs ih =>
    by_cases h1 : e.1 = p <;> simp_all [isfile, chmodF, beq_eq_decide]

theorem fsGet_unlinkF_self (fs : FS) (p : String) :
    fsGet (unlinkF fs p) p = none := by
  induction fs with
  | nil => rfl
  | cons e fs ih =>
    by_cases h1 : e.1 = p <;> simp_all [fsGet, unlinkF, beq_eq_decide]

theorem fsGet_unlinkF_ne (fs : FS) (p q : String) (h : p ≠ q) :
    fsGet (unlinkF fs p) q = fsGet fs q := by
  induction fs with
  | nil => rfl
  | cons e fs ih =>
    by_cases h1 : e.1 = p <;> by_cases h2 : e.1 = q <;>
      simp_all [fsGet, unlinkF, beq_eq_decide]

theorem fsGet_writeF_self (fs : FS) (p : String) (f : File) :
    fsGet (writeF fs p f) p = some f := by
  simp [writeF, fsGet]

theorem fsGet_writeF_ne (fs : FS) (p q : String) (f : File) (h : p ≠ q) :
    fsGet (writeF fs p f) q = fsGet fs q := by
  have h2 : ¬(p = q) := h
  simp_all [writeF, fsGet, beq_eq_decide, fsGet_unlinkF_ne fs p q h]

theorem fsGet_chmodF_self (fs : FS) (p : String) (m : Nat) :
    fsGet (chmodF fs p m) p = Option.map (fun f => File.mk f.content m) (fsGet fs p) := by
  induction fs with
  | nil => rfl
  | cons e fs ih =>
    by_cases h1 : e.1 = p <;> simp_all [fsGet, chmodF, beq_eq_decide]

theorem fsGet_chmodF_ne (fs : FS) (p q : String) (m : Nat) (h : p ≠ q) :
    fsGet (chmodF fs p m) q = fsGet fs q := by
  induction fs with
  | nil => rfl
  | cons e fs ih =>
    by_cases h1 : e.1 = p <;> by_cases h2 : e.1 = q <;>
      simp_all [fsGet, chmodF, beq_eq_decide]

/-! ## Lemmas about the pre-clean operation -/

theorem isfile_removeIfExists_self (fs : FS) (p : String) :
    isfile (removeIfExists fs p) p = false := by
  by_cases h : isfile fs p <;> simp [removeIfExists, h, isfile_unlinkF]

theorem isfile_removeIfExists_of_false (fs : FS) (p q : String)
    (hq : isfile fs q = false) :
    isfile (removeIfExists fs p) q = false := by
  by_cases h : isfile fs p <;> simp [removeIfExists, h, isfile_unlinkF, hq]

theorem removeIfExists_of_absent (fs : FS) (p : String)
    (h : isfile fs p = false) : removeIfExists fs p = fs := by
  simp [removeIfExists, h]

theorem removeOutputs_isfile_ps (cfg : ConfigAll) (fs : FS) :
    isfile (removeOutputs cfg fs) cfg.ps = false :=
  isfile_removeIfExists_of_false _ _ _ (isfile_removeIfExists_self fs cfg.ps)

theorem removeOutputs_isfile_pdf (cfg : ConfigAll) (fs : FS) :
    isfile (removeOutputs cfg fs) cfg.pdf = false :=
  isfile_removeIfExists_self _ _

theorem removeOutputs_of_absent (cfg : ConfigAll) (fs : FS)
    (hps : isfile fs cfg.ps = false) (hpdf : isfile fs cfg.pdf = false) :
    removeOutputs cfg fs = fs := by
  unfold removeOutputs
  rw [removeIfExists_of_absent fs cfg.ps hps, removeIfExists_of_absent fs cfg.pdf hpdf]

theorem removeOutputs_idem (cfg : ConfigAll) (fs : FS) :
    removeOutputs cfg (removeOutputs cfg fs) = removeOutputs cfg fs :=
  removeOutputs_of_absent cfg _ (removeOutputs_isfile_ps cfg fs)
    (removeOutputs_isfile_pdf cfg fs)

theorem remove_outputs_if_exist_ok (cfg : ConfigAll) (fs : FS) :
    remove_outputs_if_exist cfg fs = Except.ok (removeOutputs cfg fs) := by
  unfold remove_outputs_if_exist removeOutputs removeIfExists osUnlink
  by_cases h1 : isfile fs cfg.ps <;>
    by_cases h2 : isfile (if isfile fs cfg.ps then unlinkF fs cfg.ps else fs) cfg.pdf <;>
    simp_all [Except.bind, bind]

/-! ## The gating predicate -/

theorem gateFails_iff (cfg : ConfigAll) (r : ExecResult) :
    gateFails cfg r = true ↔
      (cfg.do_debug = true ∨ r.returncode ≠ 0 ∨
        (cfg.stop_on_output = true ∧ (r.output ≠ "" ∨ r.errout ≠ ""))) := by
  simp [gateFails, bne_iff_ne, or_assoc]

/-- C1: for every gated run of an external command whose launch succeeds,
the run is treated as a failure (the `sys.exit(1)` path) if and only if
debug mode is enabled, or the exit status is non-zero, or the
stop-on-any-output policy is enabled and one of the captured stdout or
stderr buffers is non-empty; otherwise the run returns normally. -/
theorem C1_gate_failure_iff (cfg : ConfigAll) (oracle : Oracle) (argv0 : String)
    (args : List String) (w : World) (r : ExecResult) (h : oracle args = some r) :
    ((∃ w1, system_check_output cfg oracle argv0 args w =
        Except.error (PyErr.systemExit 1, w1)) ↔
      (cfg.do_debug = true ∨ r.returncode ≠ 0 ∨
        (cfg.stop_on_output = true ∧ (r.output ≠ "" ∨ r.errout ≠ "")))) ∧
    ((∃ w2, system_check_output cfg oracle argv0 args w = Except.ok w2) ↔
      ¬(cfg.do_debug = true ∨ r.returncode ≠ 0 ∨
        (cfg.stop_on_output = true ∧ (r.output ≠ "" ∨ r.errout ≠ "")))) := by
  rw [← gateFails_iff cfg r]
  simp only [system_check_output, h]
  cases hg : gateFails cfg r <;> simp [hg]

/-- Closed witness for C1: in the clean default environment the lilypond
invocation satisfies the gate and returns normally. -/
theorem C1_gate_failure_iff_witness :
    ∃ w2, system_check_output cfgDef oracleClean "wrapper" (engineArgs cfgDef) initWorld =
      Except.ok w2 :=
  ((C1_gate_failure_iff cfgDef oracleClean "wrapper" (engineArgs cfgDef) initWorld
      (cleanRes (engineEffect "book.ps" "book.pdf")) rfl).2).mpr (by decide)

/-- C5: if debug mode is enabled then every launched gated run — whatever
its exit status and captured output, including a clean zero-exit run —
takes the failure path: the captured output block is printed, the managed
artifacts are absent afterwards, and the process exits with status 1. -/
theorem C5_debug_forces_failure (cfg : ConfigAll) (oracle : Oracle) (argv0 : String)
    (args : List String) (w : World) (r : ExecResult)
    (hdbg : cfg.do_debug = true) (h : oracle args = some r) :
    ∃ w1, system_check_output cfg oracle argv0 args w =
        Except.error (PyErr.systemExit 1, w1) ∧
      w1.log = w.log ++ [Msg.running argv0 args]
        ++ print_outputs argv0 r.output r.errout r.returncode args ∧
      isfile w1.fs cfg.ps = false ∧ isfile w1.fs cfg.pdf = false := by
  have hg : gateFails cfg r = true := by simp [gateFails, hdbg]
  simp only [system_check_output, h, hdbg, ite_true, hg]
  exact ⟨_, rfl, by simp, removeOutputs_isfile_ps cfg _, removeOutputs_isfile_pdf cfg _⟩

/-- Closed witness for C5: with debug on, the clean lilypond run in the
default environment still fails. -/
theorem C5_debug_forces_failure_witness :
    ∃ w1, system_check_output cfgDebug oracleClean "wrapper" (engineArgs cfgDebug) initWorld =
        Except.error (PyErr.systemExit 1, w1) ∧
      w1.log = initWorld.log ++ [Msg.running "wrapper" (engineArgs cfgDebug)]
        ++ print_outputs "wrapper" "" "" 0 (engineArgs cfgDebug) ∧
      isfile w1.fs cfgDebug.ps = false ∧ isfile w1.fs cfgDebug.pdf = false :=
  C5_debug_forces_failure cfgDebug oracleClean "wrapper" (engineArgs cfgDebug) initWorld
    (cleanRes (engineEffect "book.ps" "book.pdf")) rfl rfl

/-- C6: if the stop-on-output policy is enabled and a launched gated
command exits with status 0 but writes a non-empty string to stdout or to
stderr, the run is treated as failed: the captured output is printed, the
managed artifacts are removed, and the process exits with status 1. -/
theorem C6_stop_on_output_failure (cfg : ConfigAll) (oracle : Oracle) (argv0 : String)
    (args : List String) (w : World) (r : ExecResult)
    (hstop : cfg.stop_on_output = true) (h : oracle args = some r)
    (_hrc : r.returncode = 0) (hout : r.output ≠ "" ∨ r.errout ≠ "") :
    ∃ w1, system_check_output cfg oracle argv0 args w =
        Except.error (PyErr.systemExit 1, w1) ∧
      w1.log = (if cfg.do_debug then w.log ++ [Msg.running argv0 args] else w.log)
        ++ print_outputs argv0 r.output r.errout r.returncode args ∧
      isfile w1.fs cfg.ps = false ∧ isfile w1.fs cfg.pdf = false := by
  have hg : gateFails cfg r = true :=
    (gateFails_iff cfg r).mpr (Or.inr (Or.inr ⟨hstop, hout⟩))
  simp only [system_check_output, h, hg]
  refine ⟨_, rfl, ?_, removeOutputs_isfile_ps cfg _, removeOutputs_isfile_pdf cfg _⟩
  by_cases hd : cfg.do_debug <;> simp [hd]

/-- Closed witness for C6: a zero-exit qpdf-style command that writes to
stderr is failed in the default environment. -/
theorem C6_stop_on_output_failure_witness :
    ∃ w1, system_check_output cfgDef
        (fun _ => some { output := "", errout := "warning: junk", returncode := 0,
                         effect := fun fs => fs })
        "wrapper" ["lilypond"] initWorld =
        Except.error (PyErr.systemExit 1, w1) ∧
      w1.log = (if cfgDef.do_debug then initWorld.log ++ [Msg.running "wrapper" ["lilypond"]]
          else initWorld.log)
        ++ print_outputs "wrapper" "" "warning: junk" 0 ["lilypond"] ∧
      isfile w1.fs cfgDef.ps = false ∧ isfile w1.fs cfgDef.pdf = false :=
  C6_stop_on_output_failure cfgDef
    (fun _ => some { output := "", errout := "warning: junk", returncode := 0,
                     effect := fun fs => fs })
    "wrapper" ["lilypond"] initWorld _ rfl rfl rfl (Or.inr (by decide))

/-- C3: when the gated runner decides a launched run failed, the final
state shows, in order on the diagnostic stream: the stdout block only if
the stdout buffer is non-empty, then the stderr block only if the stderr
buffer is non-empty, then the numeric exit status, then the offending
command line; the managed artifacts are deleted from the filesystem; the
escape is `sys.exit(1)`; and when the failing command is the engine, the
whole process exits with status 1 having attempted no further external
command. -/
theorem C3_failure_path_effects (cfg : ConfigAll) (oracle : Oracle) (argv0 : String)
    (args : List String) (w : World) (r : ExecResult)
    (h : oracle args = some r) (hg : gateFails cfg r = true) :
    (∃ w1, system_check_output cfg oracle argv0 args w =
        Except.error (PyErr.systemExit 1, w1) ∧
      w1.log = (if cfg.do_debug = true then w.log ++ [Msg.running argv0 args] else w.log)
        ++ ((if r.output ≠ "" then [Msg.stdoutLabel argv0, Msg.stdoutText r.output] else [])
          ++ (if r.errout ≠ "" then [Msg.stderrLabel argv0, Msg.stderrText r.errout] else [])
          ++ [Msg.returnCode argv0 r.returncode, Msg.errorExecuting argv0 args]) ∧
      w1.fs = removeOutputs cfg (r.effect w.fs) ∧
      isfile w1.fs cfg.ps = false ∧ isfile w1.fs cfg.pdf = false ∧
      w1.trace = w.trace ++ [(args, w.fs)]) ∧
    (args = engineArgs cfg →
      ∀ argv tmpRed tmpLin,
        (processRun cfg oracle argv0 argv tmpRed tmpLin w).1 = Outcome.exited 1 ∧
        (processRun cfg oracle argv0 argv tmpRed tmpLin w).2.trace =
          w.trace ++ [(engineArgs cfg, removeOutputs cfg w.fs)]) := by
  constructor
  · simp only [system_check_output, h, hg, ite_true]
    refine ⟨_, rfl, ?_, ?_, ?_, ?_, ?_⟩ <;>
      by_cases h3 : cfg.do_debug = true <;>
      by_cases h1 : r.output = "" <;> by_cases h2 : r.errout = "" <;>
      simp [print_outputs, h1, h2, h3, removeOutputs_isfile_ps, removeOutputs_isfile_pdf]
  · intro heq argv tmpRed tmpLin
    subst heq
    simp only [processRun, run, engineStage, engineTry, system_check_output, h, hg,
      ite_true, Bind.bind, Except.bind]
    by_cases h3 : cfg.do_debug = true <;> simp [h3]

/-- Closed witness for C3: in the default environment where the qpdf
command exits 2, its gated run takes the `sys.exit(1)` path. -/
theorem C3_failure_path_effects_witness :
    ∃ w1, system_check_output cfgDef oracleQpdfFails "wrapper" (qpdfArgs cfgDef "tmp1")
        initWorld = Except.error (PyErr.systemExit 1, w1) := by
  obtain ⟨⟨w1, hw, -⟩, -⟩ :=
    C3_failure_path_effects cfgDef oracleQpdfFails "wrapper" (qpdfArgs cfgDef "tmp1")
      initWorld { output := "", errout := "qpdf: bad input", returncode := 2,
                  effect := fun fs => fs } rfl rfl
  exact ⟨w1, hw⟩

/-- C7: if launching the typesetting engine raises an OS-level error
(`oracle` returns no result for the engine command line), the managed
artifacts are deleted, an error message is written to the error stream,
and the process terminates with exit status 1. -/
theorem C7_engine_launch_error (cfg : ConfigAll) (oracle : Oracle) (argv0 : String)
    (argv : List String) (tmpRed tmpLin : String) (w : World)
    (h : oracle (engineArgs cfg) = none) :
    ∃ w1, processRun cfg oracle argv0 argv tmpRed tmpLin w = (Outcome.exited 1, w1) ∧
      isfile w1.fs cfg.ps = false ∧ isfile w1.fs cfg.pdf = false ∧
      Msg.exitingBecauseOfErrors argv0 ∈ w1.log := by
  simp only [processRun, run, engineStage, engineTry, system_check_output, h,
    Bind.bind, Except.bind]
  by_cases h3 : cfg.do_debug = true <;>
    simp [h3, removeOutputs_isfile_ps, removeOutputs_isfile_pdf]

/-- Closed witness for C7: the engine executable is missing in an
environment that answers no command line. -/
theorem C7_engine_launch_error_witness :
    ∃ w1, processRun cfgDef (fun _ => none) "wrapper" [] "tmp0" "tmp1" initWorld =
        (Outcome.exited 1, w1) ∧
      isfile w1.fs cfgDef.ps = false ∧ isfile w1.fs cfgDef.pdf = false ∧
      Msg.exitingBecauseOfErrors "wrapper" ∈ w1.log :=
  C7_engine_launch_error cfgDef (fun _ => none) "wrapper" [] "tmp0" "tmp1" initWorld rfl

theorem isfile_removeIfExists_ne (fs : FS) (p q : String) (h : p ≠ q) :
    isfile (removeIfExists fs p) q = isfile fs q := by
  have hb : (p == q) = false := by simp [beq_eq_decide, h]
  by_cases hf : isfile fs p <;> simp [removeIfExists, hf, isfile_unlinkF, hb]

/-- C8: the pre-clean/cleanup operation is total (it never raises: each
unlink is guarded by an existence check) and idempotent, and when no
artifact exists it returns the filesystem unchanged — so running it twice
in a row on an artifact-free filesystem does not error and changes
nothing. -/
theorem C8_preclean_total_idempotent (cfg : ConfigAll) (fs : FS) :
    remove_outputs_if_exist cfg fs = Except.ok (removeOutputs cfg fs) ∧
    removeOutputs cfg (removeOutputs cfg fs) = removeOutputs cfg fs ∧
    (isfile fs cfg.ps = false → isfile fs cfg.pdf = false →
      remove_outputs_if_exist cfg fs = Except.ok fs) :=
  ⟨remove_outputs_if_exist_ok cfg fs, removeOutputs_idem cfg fs,
   fun hps hpdf => by
     rw [remove_outputs_if_exist_ok, removeOutputs_of_absent cfg fs hps hpdf]⟩

/-- Closed witness for C8: on the empty filesystem, cleanup succeeds and
running it twice returns the filesystem unchanged both times. -/
theorem C8_preclean_total_idempotent_witness :
    remove_outputs_if_exist cfgDef [] = Except.ok ([] : FS) ∧
    remove_outputs_if_exist cfgDef (removeOutputs cfgDef []) = Except.ok ([] : FS) := by
  have h1 := (C8_preclean_total_idempotent cfgDef []).2.2 (by decide) (by decide)
  have h2 := (C8_preclean_total_idempotent cfgDef []).1
  refine ⟨h1, ?_⟩
  have : removeOutputs cfgDef [] = ([] : FS) := by decide
  rw [this, h1]

/-- Counterexample to C9 as stated: in the default environment where the
qpdf command exits 2, the run fails via the gated path (exit 1) but the
`delete=False` temporary file of the linearization stage is still on disk
when the process exits. -/
theorem C9_temp_survives_failed_stage :
    (processRun cfgDef oracleQpdfFails "wrapper" [] "tmp0" "tmp1" initWorld).1 =
      Outcome.exited 1 ∧
    isfile (processRun cfgDef oracleQpdfFails "wrapper" [] "tmp0" "tmp1" initWorld).2.fs
      "tmp1" = true := by decide

/-- C9 (amended): when the linearization stage completes successfully the
primary artifact has been replaced, through the temporary-file swap, by
the file the qpdf command wrote to the temporary path, and no temporary
file remains; but on the gated-failure path of the stage the temporary
file is only closed, not deleted, and remains on disk. -/
theorem C9_linearization_swap (cfg : ConfigAll) (oracle : Oracle) (argv0 tmp : String)
    (w : World) (r : ExecResult) (linF : File)
    (hq : cfg.do_qpdf = true)
    (h : oracle (qpdfArgs cfg tmp) = some r)
    (heff : r.effect = fun fs => writeF fs tmp linF)
    (hpdf : isfile w.fs cfg.pdf = true)
    (htp : tmp ≠ cfg.pdf) :
    (gateFails cfg r = false →
      ∃ w1, qpdfStage cfg oracle argv0 tmp w = Except.ok w1 ∧
        fsGet w1.fs cfg.pdf = some linF ∧
        isfile w1.fs tmp = false) ∧
    (gateFails cfg r = true → tmp ≠ cfg.ps →
      ∃ w1, qpdfStage cfg oracle argv0 tmp w = Except.error (PyErr.systemExit 1, w1) ∧
        isfile w1.fs tmp = true) := by
  have htp' : cfg.pdf ≠ tmp := fun hc => htp hc.symm
  constructor
  · intro hg
    simp only [qpdfStage, hq, ite_true, system_check_output, h, Bind.bind, Except.bind, heff]
    by_cases h3 : cfg.do_debug = true <;>
      simp [h3, hg, pyUnlink, pyMove, isfile_writeF, hpdf,
        (fun fs => fsGet_unlinkF_ne fs cfg.pdf tmp htp'), fsGet_writeF_self,
        isfile_unlinkF, beq_eq_decide, htp, htp']
  · intro hg hps
    have hps' : cfg.ps ≠ tmp := fun hc => hps hc.symm
    simp only [qpdfStage, hq, ite_true, system_check_output, h, Bind.bind, Except.bind, heff]
    by_cases h3 : cfg.do_debug = true <;>
      simp [h3, hg, removeOutputs,
        (fun fs => isfile_removeIfExists_ne fs cfg.ps tmp hps'),
        (fun fs => isfile_removeIfExists_ne fs cfg.pdf tmp htp'),
        isfile_writeF]

/-- Closed witness for C9 (amended): concrete successful linearization in
the clean default environment, starting from a filesystem that already
holds the artifacts. -/
theorem C9_linearization_swap_witness :
    ∃ w1, qpdfStage cfgDef oracleClean "wrapper" "tmp1"
        { fs := engineEffect "book.ps" "book.pdf" [], log := [], trace := [] } =
        Except.ok w1 ∧
      fsGet w1.fs cfgDef.pdf = some linFile ∧
      isfile w1.fs "tmp1" = false :=
  ((C9_linearization_swap cfgDef oracleClean "wrapper" "tmp1"
      { fs := engineEffect "book.ps" "book.pdf" [], log := [], trace := [] }
      (cleanRes (fun fs => writeF fs "tmp1" linFile)) linFile
      rfl rfl rfl (by decide) (by decide)).1) rfl

/-- Evaluation of the code at the failing input of C2: with the
size-reduction stage enabled and the `pdf2ps` executable missing, the
launch `OSError` escapes the pipeline uncaught (the `try/except OSError`
covers only the engine stage), and both managed artifacts survive on disk
(the stage temporary file itself is cleaned by its context manager). -/
theorem C2_artifacts_survive_uncaught_launch_error :
    (processRun cfgPdfred oraclePdf2psMissing "wrapper" [] "tmp0" "tmp1" initWorld).1 =
      Outcome.uncaughtOSError ∧
    isfile (processRun cfgPdfred oraclePdf2psMissing "wrapper" [] "tmp0" "tmp1"
      initWorld).2.fs cfgPdfred.ps = true ∧
    isfile (processRun cfgPdfred oraclePdf2psMissing "wrapper" [] "tmp0" "tmp1"
      initWorld).2.fs cfgPdfred.pdf = true ∧
    isfile (processRun cfgPdfred oraclePdf2psMissing "wrapper" [] "tmp0" "tmp1"
      initWorld).2.fs "tmp0" = false := by decide

/-- C10: the post-processing stages are gated only by their own flags.
With pdf production disabled (`do_pdf = false`) and linearization left at
its default (`do_qpdf = true`), a clean engine run still reaches the
linearization stage, which attempts the qpdf command against the primary
artifact path even though no file exists there at launch time. -/
theorem C10_qpdf_runs_without_pdf (cfg : ConfigAll) (oracle : Oracle)
    (argv0 tmpRed tmpLin : String) (argv : List String) (w : World) (r : ExecResult)
    (hpdf : cfg.do_pdf = false) (hps : cfg.do_ps = false)
    (hred : cfg.do_pdfred = false) (hq : cfg.do_qpdf = true)
    (hdbg : cfg.do_debug = false)
    (h : oracle (engineArgs cfg) = some r)
    (hrc : r.returncode = 0) (hout : r.output = "") (herr : r.errout = "")
    (heff : r.effect = fun fs => fs)
    (htp : tmpLin ≠ cfg.pdf) :
    ∃ fsnap, (qpdfArgs cfg tmpLin, fsnap) ∈
        (processRun cfg oracle argv0 argv tmpRed tmpLin w).2.trace ∧
      isfile fsnap cfg.pdf = false := by
  have hg : gateFails cfg r = false := by
    simp [gateFails, hdbg, hrc, hout, herr]
  refine ⟨writeF (removeOutputs cfg w.fs) tmpLin tempFile, ?_,
    by simp [isfile_writeF, beq_eq_decide, htp, removeOutputs_isfile_pdf]⟩
  rcases h2 : oracle (qpdfArgs cfg tmpLin) with - | r2
  · simp [processRun, run, engineStage, engineTry, system_check_output, h, hg,
      hdbg, hps, hpdf, hred, hq, heff, qpdfStage, pdfredStage, finalStage,
      pyUnlink, pyMove, h2, pure, Except.pure, Bind.bind, Except.bind, apply_ite World.trace]
  · by_cases hg2 : gateFails cfg r2 = true
    · simp [processRun, run, engineStage, engineTry, system_check_output, h, hg,
        hdbg, hps, hpdf, hred, hq, heff, qpdfStage, pdfredStage, finalStage,
        pyUnlink, pyMove, h2, hg2, pure, Except.pure, Bind.bind, Except.bind, apply_ite World.trace]
    · by_cases h4 : isfile (r2.effect (writeF (removeOutputs cfg w.fs) tmpLin tempFile))
          cfg.pdf = true
      · rcases h5 : fsGet (unlinkF (r2.effect (writeF (removeOutputs cfg w.fs) tmpLin
            tempFile)) cfg.pdf) tmpLin with - | f <;>
          simp [processRun, run, engineStage, engineTry, system_check_output, h, hg,
            hdbg, hps, hpdf, hred, hq, heff, qpdfStage, pdfredStage, finalStage,
            pyUnlink, pyMove, h2, hg2, h4, h5, pure, Except.pure, Bind.bind, Except.bind, apply_ite World.trace]
      · simp [processRun, run, engineStage, engineTry, system_check_output, h, hg,
          hdbg, hps, hpdf, hred, hq, heff, qpdfStage, pdfredStage, finalStage,
          pyUnlink, pyMove, h2, hg2, h4, pure, Except.pure, Bind.bind, Except.bind, apply_ite World.trace]

/-- Closed witness for C10: with pdf and ps production disabled in the
default configuration, the clean engine-only environment still attempts
the qpdf command on the absent pdf path. -/
theorem C10_qpdf_runs_without_pdf_witness :
    ∃ fsnap, (qpdfArgs cfgNoPdf "tmp1", fsnap) ∈
        (processRun cfgNoPdf oracleEngineOnly "wrapper" [] "tmp0" "tmp1" initWorld).2.trace ∧
      isfile fsnap cfgNoPdf.pdf = false :=
  C10_qpdf_runs_without_pdf cfgNoPdf oracleEngineOnly "wrapper" "tmp0" "tmp1" [] initWorld
    (cleanRes (fun fs => fs)) rfl rfl rfl rfl rfl rfl rfl rfl rfl rfl (by decide)

/-- Counterexample to C4 as stated: with debug mode enabled, a run whose
only launched command (the engine) exits 0 and writes nothing still does
not complete — the process exits 1 (and the artifacts are removed), so
"every gated command exits 0 and produces no output" does not suffice for
completion. -/
theorem C4_debug_clean_run_fails :
    ((oracleClean (engineArgs cfgDebug)).map
      (fun r => (r.returncode, r.output, r.errout))) = some (0, "", "") ∧
    (processRun cfgDebug oracleClean "wrapper" [] "tmp0" "tmp1" initWorld).1 =
      Outcome.exited 1 := by decide

/-- C4 (amended): for every run under the default flags with debug mode
off, in which the engine command launches, exits 0, writes nothing and
creates both artifacts, and the qpdf command launches, exits 0, writes
nothing and writes the linearized pdf into its temporary file, the
pipeline runs to completion (exit status 0) and the managed artifacts end
with read-only permissions 0o444, with no temporary file left behind. -/
theorem C4_clean_run_completes (ps pdf ly outp tmpRed tmpLin argv0 : String)
    (argv : List String) (w : World) (oracle : Oracle) (psF pdfF linF : File)
    (hne1 : ps ≠ pdf) (hne2 : tmpLin ≠ ps) (hne3 : tmpLin ≠ pdf)
    (h1 : oracle (engineArgs (ConfigAll.defaults ps pdf ly outp)) =
      some (cleanRes (fun fs => writeF (writeF fs ps psF) pdf pdfF)))
    (h2 : oracle (qpdfArgs (ConfigAll.defaults ps pdf ly outp) tmpLin) =
      some (cleanRes (fun fs => writeF fs tmpLin linF))) :
    ∃ w1, processRun (ConfigAll.defaults ps pdf ly outp) oracle argv0 argv
        tmpRed tmpLin w = (Outcome.completed, w1) ∧
      fsGet w1.fs ps = some (File.mk psF.content 0o444) ∧
      fsGet w1.fs pdf = some (File.mk linF.content 0o444) ∧
      isfile w1.fs tmpLin = false := by
  have c1 : (ConfigAll.defaults ps pdf ly outp).do_debug = false := rfl
  have c2 : (ConfigAll.defaults ps pdf ly outp).do_ps = true := rfl
  have c3 : (ConfigAll.defaults ps pdf ly outp).do_pdf = true := rfl
  have c4 : (ConfigAll.defaults ps pdf ly outp).do_pdfred = false := rfl
  have c5 : (ConfigAll.defaults ps pdf ly outp).do_qpdf = true := rfl
  have c6 : (ConfigAll.defaults ps pdf ly outp).unlink_ps = false := rfl
  have c7 : (ConfigAll.defaults ps pdf ly outp).ps = ps := rfl
  have c8 : (ConfigAll.defaults ps pdf ly outp).pdf = pdf := rfl
  simp [processRun, run, engineStage, engineTry, qpdfStage, pdfredStage,
    finalStage, system_check_output, pyChmod, pyUnlink, pyMove, h1, h2,
    gateFails, cleanRes, c1, c2, c3, c4, c5, c6, c7, c8,
    Bind.bind, Except.bind, pure, Except.pure,
    isfile_writeF, isfile_chmodF, isfile_unlinkF, fsGet_writeF_self,
    fsGet_chmodF_self, removeOutputs_isfile_ps, removeOutputs_isfile_pdf,
    beq_eq_decide, hne1, Ne.symm hne1, hne2, Ne.symm hne2, hne3, Ne.symm hne3,
    (fun fs f => fsGet_writeF_ne fs pdf ps f (Ne.symm hne1)),
    (fun fs f => fsGet_writeF_ne fs tmpLin ps f hne2),
    (fun fs f => fsGet_writeF_ne fs tmpLin pdf f hne3),
    (fun fs f => fsGet_writeF_ne fs ps pdf f hne1),
    (fun fs f => fsGet_writeF_ne fs ps tmpLin f (Ne.symm hne2)),
    (fun fs f => fsGet_writeF_ne fs pdf tmpLin f (Ne.symm hne3)),
    (fun fs => fsGet_unlinkF_ne fs tmpLin ps hne2),
    (fun fs => fsGet_unlinkF_ne fs tmpLin pdf hne3),
    (fun fs => fsGet_unlinkF_ne fs pdf ps (Ne.symm hne1)),
    (fun fs => fsGet_unlinkF_ne fs pdf tmpLin (Ne.symm hne3)),
    (fun fs => fsGet_unlinkF_ne fs ps tmpLin (Ne.symm hne2)),
    (fun fs m => fsGet_chmodF_ne fs ps pdf m hne1),
    (fun fs m => fsGet_chmodF_ne fs pdf ps m (Ne.symm hne1))]

/-- Closed witness for C4 (amended): the concrete clean default run
completes with both artifacts read-only and the temporary file gone. -/
theorem C4_clean_run_completes_witness :
    ∃ w1, processRun (ConfigAll.defaults "book.ps" "book.pdf" "book.ly" "out")
        oracleClean "wrapper" [] "tmp0" "tmp1" initWorld = (Outcome.completed, w1) ∧
      fsGet w1.fs "book.ps" = some (File.mk psFile.content 0o444) ∧
      fsGet w1.fs "book.pdf" = some (File.mk linFile.content 0o444) ∧
      isfile w1.fs "tmp1" = false :=
  C4_clean_run_completes "book.ps" "book.pdf" "book.ly" "out" "tmp0" "tmp1" "wrapper"
    [] initWorld oracleClean psFile pdfFile linFile
    (by decide) (by decide) (by decide) rfl rfl

end OpenBook
